import Mathlib

/-!
Verification of the LLDP (IEEE 802.1AB) decoder in `layers/lldp.go`.

Modelling conventions (shallow embedding of the Go source):

- A byte buffer is a `List Nat`; every entry of a real buffer is `< 256`.
  Where the Go source performs arithmetic in the 8-bit `byte` type, the
  embedding writes the wraparound explicitly as `% 256`.
- Indexing `s[i]` panics when `i ≥ len(s)` (Go checks indices against the
  length, never the capacity).  Slices handed in by a caller — the entry
  buffer of `decodeLinkLayerDiscovery` and the `Info` payloads given to the
  exported extension decoders — are modelled with capacity equal to length
  (`pslice`), which a caller can always realize with an exactly allocated
  buffer.  Value views that the walker itself carves out of a validated
  frame are always followed by at least the 2-byte header of the next
  record, so they carry at least 2 bytes of capacity slack; their slices
  use `psliceView`, which honours that slack.
- A runtime panic is a distinguished outcome (`GoStep.panicked`), different
  from a normal non-nil error return (`GoStep.errored`).
- `fmt.Errorf` results are modelled by the inductive `GoError`, one
  constructor per distinct error site, carrying the formatted arguments.
- Go strings built from byte slices are kept as `List Nat` byte lists.

The walker loop of `decodeLinkLayerDiscovery` consumes at least two bytes of
the buffer per iteration, so running it with fuel `length + 1` never exhausts
the fuel; the fuel is only a device to keep the definition structurally
recursive (and hence kernel-reducible).
-/

/-- The `fmt.Errorf` values produced in `lldp.go`, one constructor per call
site, carrying the formatted arguments. -/
inductive GoError where
  | malformedHeader
  | missingMandatory
  | malformedChassisID
  | malformedPortID
  | malformedTTL
  | invalidTLVLen (t : Nat) (len : Nat) (wanted : Nat)
  | invalidOrgLen (subType : Nat) (len : Nat) (wanted : Nat)
deriving Repr, DecidableEq, Inhabited

/-- Outcome of one Go computation step: a runtime panic, an early `return err`,
or a normal value. -/
inductive GoStep (α : Type) where
  | panicked (msg : String)
  | errored (e : GoError)
  | ok (a : α)
deriving Repr, DecidableEq

/-- Go slice indexing `s[i]` (capacity = length): panics out of range. -/
def pidx (l : List Nat) (i : Nat) : GoStep Nat :=
  match l.get? i with
  | some b => GoStep.ok b
  | none => GoStep.panicked "runtime error: index out of range"

/-- Go slice expression `s[lo:hi]` (capacity = length): panics unless
`lo ≤ hi ≤ len(s)`. -/
def pslice (l : List Nat) (lo hi : Nat) : GoStep (List Nat) :=
  if lo ≤ hi ∧ hi ≤ l.length then GoStep.ok ((l.drop lo).take (hi - lo))
  else GoStep.panicked "runtime error: slice bounds out of range"

/-- Go slice expression `s[lo:hi]` on a value view produced by the TLV walker
inside a successfully validated frame.  Such a view is always followed in the
underlying packet buffer by at least the two header bytes of the next record
(ultimately the End record that the frame validation requires), so its
capacity exceeds its length by at least 2, and Go accepts any slice with
`lo ≤ hi ≤ len + 2`.  Three regimes:
`hi ≤ len` behaves like an exact slice; an empty slice landing in the slack
(`lo = hi ≤ len + 2`) succeeds in Go with an empty byte string and is
modelled exactly; a slice that would actually contain bytes past the length
(`lo < hi`, `len < hi`) aliases the following record header in Go (and
beyond `len + 2` its fate depends on how much buffer follows) — those
aliased bytes are not representable at this level, so the case is collapsed
to the panic constructor; no statement in this file traverses it. -/
def psliceView (l : List Nat) (lo hi : Nat) : GoStep (List Nat) :=
  if lo ≤ hi ∧ hi ≤ l.length then GoStep.ok ((l.drop lo).take (hi - lo))
  else if lo = hi ∧ hi ≤ l.length + 2 then GoStep.ok []
  else GoStep.panicked "runtime error: slice bounds out of range"

/-- Total byte accessor, used only where the surrounding Go code has already
checked that the index is in range (out-of-range default is irrelevant). -/
def byteAt (l : List Nat) (i : Nat) : Nat := (l.get? i).getD 0

/-- Source `binary.BigEndian.Uint16`: reads the first two bytes, panics when the
slice is shorter than 2. -/
def beUint16 (b : List Nat) : GoStep Nat :=
  match b.get? 0, b.get? 1 with
  | some x, some y => GoStep.ok (x * 256 + y)
  | _, _ => GoStep.panicked "runtime error: index out of range"

/-- Source `binary.BigEndian.Uint32`: reads the first four bytes, panics when the
slice is shorter than 4. -/
def beUint32 (b : List Nat) : GoStep Nat :=
  match b.get? 0, b.get? 1, b.get? 2, b.get? 3 with
  | some x, some y, some z, some w =>
      GoStep.ok (x * 16777216 + y * 65536 + z * 256 + w)
  | _, _, _, _ => GoStep.panicked "runtime error: index out of range"

/-- Source `binary.BigEndian.Uint16(l[i:i+2])` where the caller has already checked
`i+2 ≤ len(l)`. -/
def beU16at (l : List Nat) (i : Nat) : Nat := byteAt l i * 256 + byteAt l (i + 1)

/-- Source `binary.BigEndian.Uint32(l[i:i+4])` where the caller has already checked
`i+4 ≤ len(l)`. -/
def beU32at (l : List Nat) (i : Nat) : Nat :=
  byteAt l i * 16777216 + byteAt l (i + 1) * 65536 + byteAt l (i + 2) * 256 + byteAt l (i + 3)

/-- Source `LinkLayerDiscoveryValue`: one raw TLV record. -/
structure LinkLayerDiscoveryValue where
  type : Nat := 0
  length : Nat := 0
  value : List Nat := []
deriving Repr, DecidableEq, Inhabited

/-- Source `LLDPChassisID`. -/
structure LLDPChassisID where
  subtype : Nat := 0
  id : List Nat := []
deriving Repr, DecidableEq, Inhabited

/-- Source `LLDPPortID`. -/
structure LLDPPortID where
  subtype : Nat := 0
  id : List Nat := []
deriving Repr, DecidableEq, Inhabited

/-- Source `LinkLayerDiscovery`: the base frame layer (mandatory TLVs plus leftover
records). -/
structure LinkLayerDiscovery where
  chassisID : LLDPChassisID := {}
  portID : LLDPPortID := {}
  ttl : Nat := 0
  values : List LinkLayerDiscoveryValue := []
deriving Repr, DecidableEq, Inhabited

/-- Zero value `&LinkLayerDiscovery{}`. -/
def emptyDiscovery : LinkLayerDiscovery := {}

/-- Source `LLDPCapabilities`: the 11 named booleans of a 16-bit capability mask. -/
structure LLDPCapabilities where
  other : Bool := false
  repeater : Bool := false
  bridge : Bool := false
  wlanAP : Bool := false
  router : Bool := false
  phone : Bool := false
  docSis : Bool := false
  stationOnly : Bool := false
  cvlan : Bool := false
  svlan : Bool := false
  tmpr : Bool := false
deriving Repr, DecidableEq, Inhabited

/-- Source `getCapabilities`: expand a 16-bit mask into named booleans. -/
def getCapabilities (v : Nat) : LLDPCapabilities :=
  { other := (v &&& 1) != 0
    repeater := (v &&& 2) != 0
    bridge := (v &&& 4) != 0
    wlanAP := (v &&& 8) != 0
    router := (v &&& 16) != 0
    phone := (v &&& 32) != 0
    docSis := (v &&& 64) != 0
    stationOnly := (v &&& 128) != 0
    cvlan := (v &&& 256) != 0
    svlan := (v &&& 512) != 0
    tmpr := (v &&& 1024) != 0 }

/-- Source `LLDPSysCapabilities`. -/
structure LLDPSysCapabilities where
  systemCap : LLDPCapabilities := {}
  enabledCap : LLDPCapabilities := {}
deriving Repr, DecidableEq, Inhabited

/-- Source `LLDPMgmtAddress`. -/
structure LLDPMgmtAddress where
  subtype : Nat := 0
  address : List Nat := []
  interfaceSubtype : Nat := 0
  interfaceNumber : Nat := 0
  oid : List Nat := []
deriving Repr, DecidableEq, Inhabited

/-- Source `LLDPOrgSpecificTLV`. -/
structure LLDPOrgSpecificTLV where
  oui : Nat := 0
  subType : Nat := 0
  info : List Nat := []
deriving Repr, DecidableEq, Inhabited

/-- Source `LinkLayerDiscoveryInfo`: the decoded optional-TLV layer. -/
structure LinkLayerDiscoveryInfo where
  portDescription : List Nat := []
  sysName : List Nat := []
  sysDescription : List Nat := []
  sysCapabilities : LLDPSysCapabilities := {}
  mgmtAddress : LLDPMgmtAddress := {}
  orgTLVs : List LLDPOrgSpecificTLV := []
  unknown : List LinkLayerDiscoveryValue := []
deriving Repr, DecidableEq, Inhabited

/-- Zero value `&LinkLayerDiscoveryInfo{}`. -/
def emptyInfo : LinkLayerDiscoveryInfo := {}

/-- The layers handed to `gopacket.PacketBuilder.AddLayer` during a decode. -/
inductive LLDPLayer where
  | frame (c : LinkLayerDiscovery)
  | info (i : LinkLayerDiscoveryInfo)
deriving Repr, DecidableEq

/-- Final observable outcome of `decodeLinkLayerDiscovery`. -/
inductive LLDPOutcome where
  | panicked (msg : String)
  | errored (e : GoError)
  | completed
deriving Repr, DecidableEq

/-- Caller-observable result of `decodeLinkLayerDiscovery`: the layers added
to the packet builder (in order) and how the call ended. -/
structure LLDPDecodeResult where
  layers : List LLDPLayer
  outcome : LLDPOutcome
deriving Repr, DecidableEq

/-- The TLV walker loop (`lldp.go` lines 456-472).  The top 7 bits of the first byte
are the kind, and its bottom bit feeds `nbit<<8 + vData[1]` which Go
evaluates in 8-bit arithmetic (hence the `% 256`); the value is sliced
before the remaining-length check.  Fuel is `length + 1`; each iteration
either stops or recurses on a list at least 2 bytes shorter, so the fuel
never runs out. -/
def walkAux : Nat → List Nat → List LinkLayerDiscoveryValue →
    GoStep (List LinkLayerDiscoveryValue)
  | _, [], acc => GoStep.ok acc
  | 0, _ :: _, acc => GoStep.ok acc
  | fuel + 1, b0 :: tail, acc =>
    let vData := b0 :: tail
    match pidx vData 1 with
    | GoStep.panicked m => GoStep.panicked m
    | GoStep.errored e => GoStep.errored e
    | GoStep.ok b1 =>
      let nbit := b0 % 2
      let t := b0 / 2
      let L := ((nbit <<< 8) + b1) % 256
      match (if 0 < L then pslice vData 2 (L + 2) else GoStep.ok []) with
      | GoStep.panicked m => GoStep.panicked m
      | GoStep.errored e => GoStep.errored e
      | GoStep.ok value =>
        let val : LinkLayerDiscoveryValue := ⟨t, L, value⟩
        if t = 0 then GoStep.ok (acc ++ [val])
        else if vData.length < 2 + L then GoStep.errored GoError.malformedHeader
        else walkAux fuel (vData.drop (2 + L)) (acc ++ [val])

/-- Scan a buffer into raw TLV records (`lldp.go` lines 455-472). -/
def walkTLVs (data : List Nat) : GoStep (List LinkLayerDiscoveryValue) :=
  walkAux (data.length + 1) data []

/-- The mandatory-field extraction loop (`lldp.go` lines 477-502). -/
def extractLoop : List LinkLayerDiscoveryValue → LinkLayerDiscovery → Bool →
    GoStep (LinkLayerDiscovery × Bool)
  | [], c, gotEnd => GoStep.ok (c, gotEnd)
  | v :: rest, c, gotEnd =>
    if v.type = 0 then extractLoop rest c true
    else if v.type = 1 then
      if v.value.length < 2 then GoStep.errored GoError.malformedChassisID
      else extractLoop rest
        { c with chassisID := ⟨byteAt v.value 0, v.value.drop 1⟩ } gotEnd
    else if v.type = 2 then
      if v.value.length < 2 then GoStep.errored GoError.malformedPortID
      else extractLoop rest
        { c with portID := ⟨byteAt v.value 0, v.value.drop 1⟩ } gotEnd
    else if v.type = 3 then
      if v.value.length < 2 then GoStep.errored GoError.malformedTTL
      else extractLoop rest { c with ttl := beU16at v.value 0 } gotEnd
    else extractLoop rest { c with values := c.values ++ [v] } gotEnd

/-- Frame-level stage of `decodeLinkLayerDiscovery` (walk, record-count check,
mandatory extraction, subtype/End validation; lines 454-505). -/
def decodeFrameStage (data : List Nat) : GoStep LinkLayerDiscovery :=
  match walkTLVs data with
  | GoStep.panicked m => GoStep.panicked m
  | GoStep.errored e => GoStep.errored e
  | GoStep.ok vals =>
    if vals.length < 4 then GoStep.errored GoError.missingMandatory
    else match extractLoop vals emptyDiscovery false with
    | GoStep.panicked m => GoStep.panicked m
    | GoStep.errored e => GoStep.errored e
    | GoStep.ok (c, gotEnd) =>
      if c.chassisID.subtype = 0 ∨ c.portID.subtype = 0 ∨ gotEnd = false then
        GoStep.errored GoError.missingMandatory
      else GoStep.ok c

/-- Source `checkLLDPTLVLen` (`lldp.go` lines 871-877). -/
def checkLLDPTLVLen (v : LinkLayerDiscoveryValue) (l : Nat) (e : List GoError) :
    Bool × List GoError :=
  if l ≤ v.value.length then (true, e)
  else (false, e ++ [GoError.invalidTLVLen v.type v.value.length l])

/-- Source `checkLLDPOrgSpecificLen` (`lldp.go` lines 879-885). -/
def checkLLDPOrgSpecificLen (o : LLDPOrgSpecificTLV) (l : Nat) (e : List GoError) :
    Bool × List GoError :=
  if l ≤ o.info.length then (true, e)
  else (false, e ++ [GoError.invalidOrgLen o.subType o.info.length l])

/-- The optional-TLV info loop (`lldp.go` lines 512-546).  The management
address branch performs all of its offset arithmetic in the 8-bit `byte`
type, hence the `% 256` wraps; its reads beyond index 1 go through the
panicking `pidx` and through `psliceView` (the slack-aware slice: this loop
only runs on walker-produced views inside a validated frame, which always
have at least 2 bytes of capacity after their length) because the earlier
checks do not make them safe. -/
def decodeInfoLoop : List LinkLayerDiscoveryValue → LinkLayerDiscoveryInfo →
    List GoError → GoStep (LinkLayerDiscoveryInfo × List GoError)
  | [], info, errs => GoStep.ok (info, errs)
  | v :: rest, info, errs =>
    if v.type = 4 then decodeInfoLoop rest { info with portDescription := v.value } errs
    else if v.type = 5 then decodeInfoLoop rest { info with sysName := v.value } errs
    else if v.type = 6 then decodeInfoLoop rest { info with sysDescription := v.value } errs
    else if v.type = 7 then
      match checkLLDPTLVLen v 4 errs with
      | (false, errs1) => decodeInfoLoop rest info errs1
      | (true, errs1) =>
        decodeInfoLoop rest
          { info with sysCapabilities :=
              ⟨getCapabilities (beU16at v.value 0), getCapabilities (beU16at v.value 2)⟩ }
          errs1
    else if v.type = 8 then
      match checkLLDPTLVLen v 9 errs with
      | (false, errs1) => decodeInfoLoop rest info errs1
      | (true, errs1) =>
        match pidx v.value 0 with
        | GoStep.panicked m => GoStep.panicked m
        | GoStep.errored e => GoStep.errored e
        | GoStep.ok mlen =>
          match checkLLDPTLVLen v ((mlen + 7) % 256) errs1 with
          | (false, errs2) => decodeInfoLoop rest info errs2
          | (true, errs2) =>
            let msub := byteAt v.value 1
            match psliceView v.value 2 ((mlen + 1) % 256) with
            | GoStep.panicked m => GoStep.panicked m
            | GoStep.errored e => GoStep.errored e
            | GoStep.ok addr =>
              match pidx v.value ((mlen + 1) % 256) with
              | GoStep.panicked m => GoStep.panicked m
              | GoStep.errored e => GoStep.errored e
              | GoStep.ok isub =>
                match psliceView v.value ((mlen + 2) % 256) ((mlen + 6) % 256) with
                | GoStep.panicked m => GoStep.panicked m
                | GoStep.errored e => GoStep.errored e
                | GoStep.ok numBytes =>
                  match beUint32 numBytes with
                  | GoStep.panicked m => GoStep.panicked m
                  | GoStep.errored e => GoStep.errored e
                  | GoStep.ok ifaceNum =>
                    match pidx v.value ((mlen + 6) % 256) with
                    | GoStep.panicked m => GoStep.panicked m
                    | GoStep.errored e => GoStep.errored e
                    | GoStep.ok olen =>
                      match checkLLDPTLVLen v (((mlen + 6) % 256 + olen) % 256) errs2 with
                      | (false, errs3) =>
                        decodeInfoLoop rest
                          { info with mgmtAddress := ⟨msub, addr, isub, ifaceNum, []⟩ } errs3
                      | (true, errs3) =>
                        match psliceView v.value ((mlen + 9) % 256)
                            (((mlen + 9) % 256 + olen) % 256) with
                        | GoStep.panicked m => GoStep.panicked m
                        | GoStep.errored e => GoStep.errored e
                        | GoStep.ok oid =>
                          decodeInfoLoop rest
                            { info with mgmtAddress := ⟨msub, addr, isub, ifaceNum, oid⟩ } errs3
    else if v.type = 127 then
      match checkLLDPTLVLen v 4 errs with
      | (false, errs1) => decodeInfoLoop rest info errs1
      | (true, errs1) =>
        decodeInfoLoop rest
          { info with orgTLVs := info.orgTLVs ++
              [⟨byteAt v.value 0 * 65536 + byteAt v.value 1 * 256 + byteAt v.value 2,
                byteAt v.value 3, v.value.drop 4⟩] }
          errs1
    else decodeInfoLoop rest info errs

/-- The optional-TLV info pass over the leftover records of the frame, starting
from the zero `LinkLayerDiscoveryInfo` and an empty error list. -/
def decodeInfo (values : List LinkLayerDiscoveryValue) :
    GoStep (LinkLayerDiscoveryInfo × List GoError) :=
  decodeInfoLoop values emptyInfo []

/-- Source `decodeLinkLayerDiscovery` (`lldp.go` lines 454-552): frame stage, then
`AddLayer(c)`, then the info pass, then `AddLayer(info)`, returning
`errors[0]` when any field-level error accumulated. -/
def decodeLinkLayerDiscovery (data : List Nat) : LLDPDecodeResult :=
  match decodeFrameStage data with
  | GoStep.panicked m => ⟨[], LLDPOutcome.panicked m⟩
  | GoStep.errored e => ⟨[], LLDPOutcome.errored e⟩
  | GoStep.ok c =>
    match decodeInfo c.values with
    | GoStep.panicked m => ⟨[LLDPLayer.frame c], LLDPOutcome.panicked m⟩
    | GoStep.errored e => ⟨[LLDPLayer.frame c], LLDPOutcome.errored e⟩
    | GoStep.ok (i, errs) =>
      ⟨[LLDPLayer.frame c, LLDPLayer.info i],
        match errs with
        | [] => LLDPOutcome.completed
        | e :: _ => LLDPOutcome.errored e⟩

/-- Source `PortProtocolVLANID`. -/
structure PortProtocolVLANID where
  supported : Bool := false
  enabled : Bool := false
  id : Nat := 0
deriving Repr, DecidableEq, Inhabited

/-- Source `VLANName`. -/
structure VLANName where
  id : Nat := 0
  name : List Nat := []
deriving Repr, DecidableEq, Inhabited

/-- Source `LinkAggregation8021`. -/
structure LinkAggregation8021 where
  supported : Bool := false
  enabled : Bool := false
  portID : Nat := 0
deriving Repr, DecidableEq, Inhabited

/-- Source `LLDPInfo8021`. -/
structure LLDPInfo8021 where
  pvid : Nat := 0
  ppvids : List PortProtocolVLANID := []
  vlanNames : List VLANName := []
  protocolIdentities : List (List Nat) := []
  vidUsageDigest : Nat := 0
  managementVID : Nat := 0
  linkAggregation : LinkAggregation8021 := {}
deriving Repr, DecidableEq, Inhabited

/-- Zero value of `LLDPInfo8021`. -/
def empty8021 : LLDPInfo8021 := {}

/-- Source `MACPHYConfigStatus`. -/
structure MACPHYConfigStatus where
  autoNegSupported : Bool := false
  autoNegEnabled : Bool := false
  autoNegCapability : Nat := 0
  mauType : Nat := 0
deriving Repr, DecidableEq, Inhabited

/-- Source `PowerViaMDI`. -/
structure PowerViaMDI where
  portClassPSE : Bool := false
  pseSupported : Bool := false
  pseEnabled : Bool := false
  psePairsAbility : Bool := false
  psePowerPair : Nat := 0
  pseClass : Nat := 0
  powerType : Nat := 0
  powerSource : Nat := 0
  powerPriority : Nat := 0
  requestedPower : Nat := 0
  allocatedPower : Nat := 0
deriving Repr, DecidableEq, Inhabited

/-- Source `LinkAggregation8023`. -/
structure LinkAggregation8023 where
  status : Nat := 0
  portID : Nat := 0
deriving Repr, DecidableEq, Inhabited

/-- Source `LLDPInfo8023`. -/
structure LLDPInfo8023 where
  macPHYConfigStatus : MACPHYConfigStatus := {}
  powerViaMDI : PowerViaMDI := {}
  linkAggregation : LinkAggregation8023 := {}
  mtu : Nat := 0
deriving Repr, DecidableEq, Inhabited

/-- Zero value of `LLDPInfo8023`. -/
def empty8023 : LLDPInfo8023 := {}

/-- Source `LLDPEVBCapabilities`. -/
structure LLDPEVBCapabilities where
  standardBridging : Bool := false
  reflectiveRelay : Bool := false
  retransmissionTimerExponent : Bool := false
  edgeControlProtocol : Bool := false
  vsiDiscoveryProtocol : Bool := false
deriving Repr, DecidableEq, Inhabited

/-- Source `getEVBCapabilities`. -/
def getEVBCapabilities (v : Nat) : LLDPEVBCapabilities :=
  { standardBridging := (v &&& 1) != 0
    reflectiveRelay := (v &&& 2) != 0
    retransmissionTimerExponent := (v &&& 4) != 0
    edgeControlProtocol := (v &&& 8) != 0
    vsiDiscoveryProtocol := (v &&& 16) != 0 }

/-- Source `LLDPEVBSettings`. -/
structure LLDPEVBSettings where
  supported : LLDPEVBCapabilities := {}
  enabled : LLDPEVBCapabilities := {}
  supportedVSIs : Nat := 0
  configuredVSIs : Nat := 0
  rteExponent : Nat := 0
deriving Repr, DecidableEq, Inhabited

/-- Source `LLDPInfo8021Qbg`. -/
structure LLDPInfo8021Qbg where
  evbSettings : LLDPEVBSettings := {}
deriving Repr, DecidableEq, Inhabited

/-- The IEEE 802.1 extension loop (`lldp.go` lines 557-600).  The VLAN Name
branch reads `o.Info[3:]` guarded only by a ≥ 2 length check, and the
Protocol Identity branch reads `o.Info[1:1+l]` with no length guard at all,
so both go through the panicking `pslice`. -/
def decode8021Loop : List LLDPOrgSpecificTLV → LLDPInfo8021 → List GoError →
    GoStep (LLDPInfo8021 × List GoError)
  | [], acc, errs => GoStep.ok (acc, errs)
  | o :: rest, acc, errs =>
    if o.oui ≠ 0x0080c2 then decode8021Loop rest acc errs
    else if o.subType = 1 then
      match checkLLDPOrgSpecificLen o 2 errs with
      | (false, e1) => decode8021Loop rest acc e1
      | (true, e1) => decode8021Loop rest { acc with pvid := beU16at o.info 0 } e1
    else if o.subType = 2 then
      match checkLLDPOrgSpecificLen o 3 errs with
      | (false, e1) => decode8021Loop rest acc e1
      | (true, e1) =>
        decode8021Loop rest
          { acc with ppvids := acc.ppvids ++
              [⟨(byteAt o.info 0 &&& 1) != 0, (byteAt o.info 0 &&& 2) != 0,
                beU16at o.info 1⟩] } e1
    else if o.subType = 3 then
      match checkLLDPOrgSpecificLen o 2 errs with
      | (false, e1) => decode8021Loop rest acc e1
      | (true, e1) =>
        match pslice o.info 3 o.info.length with
        | GoStep.panicked m => GoStep.panicked m
        | GoStep.errored e => GoStep.errored e
        | GoStep.ok name =>
          decode8021Loop rest
            { acc with vlanNames := acc.vlanNames ++ [⟨beU16at o.info 0, name⟩] } e1
    else if o.subType = 4 then
      match checkLLDPOrgSpecificLen o 1 errs with
      | (false, e1) => decode8021Loop rest acc e1
      | (true, e1) =>
        let l := byteAt o.info 0
        if 0 < l then
          match pslice o.info 1 (1 + l) with
          | GoStep.panicked m => GoStep.panicked m
          | GoStep.errored e => GoStep.errored e
          | GoStep.ok blob =>
            decode8021Loop rest
              { acc with protocolIdentities := acc.protocolIdentities ++ [blob] } e1
        else decode8021Loop rest acc e1
    else if o.subType = 5 then
      match checkLLDPOrgSpecificLen o 4 errs with
      | (false, e1) => decode8021Loop rest acc e1
      | (true, e1) => decode8021Loop rest { acc with vidUsageDigest := beU32at o.info 0 } e1
    else if o.subType = 6 then
      match checkLLDPOrgSpecificLen o 2 errs with
      | (false, e1) => decode8021Loop rest acc e1
      | (true, e1) => decode8021Loop rest { acc with managementVID := beU16at o.info 0 } e1
    else if o.subType = 7 then
      match checkLLDPOrgSpecificLen o 5 errs with
      | (false, e1) => decode8021Loop rest acc e1
      | (true, e1) =>
        decode8021Loop rest
          { acc with linkAggregation :=
              ⟨(byteAt o.info 0 &&& 1) != 0, (byteAt o.info 0 &&& 2) != 0,
                beU32at o.info 1⟩ } e1
    else decode8021Loop rest acc errs

/-- Source `Decode8021` up to its final `err = errors[0]` step: the result of the loop
together with the full accumulated error list. -/
def Decode8021Aux (l : LinkLayerDiscoveryInfo) : GoStep (LLDPInfo8021 × List GoError) :=
  decode8021Loop l.orgTLVs empty8021 []

/-- Source `Decode8021` (`lldp.go` lines 554-605): the caller-visible result, where
only `errors[0]` survives as the returned error. -/
def Decode8021 (l : LinkLayerDiscoveryInfo) : GoStep (LLDPInfo8021 × Option GoError) :=
  match Decode8021Aux l with
  | GoStep.panicked m => GoStep.panicked m
  | GoStep.errored e => GoStep.errored e
  | GoStep.ok (i, errs) => GoStep.ok (i, errs.head?)

/-- The IEEE 802.3 extension loop (`lldp.go` lines 610-651).  In the MDI
power branch, when the payload has at least 8 bytes, `AllocatedPower` is
computed as `binary.BigEndian.Uint16(o.Info[7:8])` — a one-byte slice handed
to a reader of two bytes. -/
def decode8023Loop : List LLDPOrgSpecificTLV → LLDPInfo8023 → List GoError →
    GoStep (LLDPInfo8023 × List GoError)
  | [], acc, errs => GoStep.ok (acc, errs)
  | o :: rest, acc, errs =>
    if o.oui ≠ 0x00120f then decode8023Loop rest acc errs
    else if o.subType = 1 then
      match checkLLDPOrgSpecificLen o 5 errs with
      | (false, e1) => decode8023Loop rest acc e1
      | (true, e1) =>
        decode8023Loop rest
          { acc with macPHYConfigStatus :=
              ⟨(byteAt o.info 0 &&& 1) != 0, (byteAt o.info 0 &&& 2) != 0,
                beU16at o.info 1, beU16at o.info 3⟩ } e1
    else if o.subType = 2 then
      match checkLLDPOrgSpecificLen o 3 errs with
      | (false, e1) => decode8023Loop rest acc e1
      | (true, e1) =>
        let pm0 : PowerViaMDI :=
          { acc.powerViaMDI with
            portClassPSE := (byteAt o.info 0 &&& 1) != 0
            pseSupported := (byteAt o.info 0 &&& 2) != 0
            pseEnabled := (byteAt o.info 0 &&& 4) != 0
            psePairsAbility := (byteAt o.info 0 &&& 8) != 0
            psePowerPair := byteAt o.info 1
            pseClass := byteAt o.info 2 }
        if 8 ≤ o.info.length then
          let pt := (byteAt o.info 3 &&& 0xc0) / 64
          let ps0 := (byteAt o.info 3 &&& 0x30) / 16
          let ps := if pt = 1 ∨ pt = 3 then ps0 + 128 else ps0
          match pslice o.info 7 8 with
          | GoStep.panicked m => GoStep.panicked m
          | GoStep.errored e => GoStep.errored e
          | GoStep.ok ab =>
            match beUint16 ab with
            | GoStep.panicked m => GoStep.panicked m
            | GoStep.errored e => GoStep.errored e
            | GoStep.ok ap =>
              decode8023Loop rest
                { acc with powerViaMDI :=
                    { pm0 with
                      powerType := pt
                      powerSource := ps
                      powerPriority := byteAt o.info 4 &&& 0x0f
                      requestedPower := beU16at o.info 5
                      allocatedPower := ap } } e1
        else decode8023Loop rest { acc with powerViaMDI := pm0 } e1
    else if o.subType = 3 then
      match checkLLDPOrgSpecificLen o 5 errs with
      | (false, e1) => decode8023Loop rest acc e1
      | (true, e1) =>
        decode8023Loop rest
          { acc with linkAggregation := ⟨byteAt o.info 0, beU32at o.info 1⟩ } e1
    else if o.subType = 4 then
      match checkLLDPOrgSpecificLen o 2 errs with
      | (false, e1) => decode8023Loop rest acc e1
      | (true, e1) => decode8023Loop rest { acc with mtu := beU16at o.info 0 } e1
    else decode8023Loop rest acc errs

/-- Source `Decode8023` up to its final `err = errors[0]` step. -/
def Decode8023Aux (l : LinkLayerDiscoveryInfo) : GoStep (LLDPInfo8023 × List GoError) :=
  decode8023Loop l.orgTLVs empty8023 []

/-- Source `Decode8023` (`lldp.go` lines 607-656): the caller-visible result. -/
def Decode8023 (l : LinkLayerDiscoveryInfo) : GoStep (LLDPInfo8023 × Option GoError) :=
  match Decode8023Aux l with
  | GoStep.panicked m => GoStep.panicked m
  | GoStep.errored e => GoStep.errored e
  | GoStep.ok (i, errs) => GoStep.ok (i, errs.head?)

/-- The IEEE 802.1Qbg extension loop (`lldp.go` lines 661-675). -/
def decode8021QbgLoop : List LLDPOrgSpecificTLV → LLDPInfo8021Qbg → List GoError →
    GoStep (LLDPInfo8021Qbg × List GoError)
  | [], acc, errs => GoStep.ok (acc, errs)
  | o :: rest, acc, errs =>
    if o.oui ≠ 0x0013BF then decode8021QbgLoop rest acc errs
    else if o.subType = 0 then
      match checkLLDPOrgSpecificLen o 9 errs with
      | (false, e1) => decode8021QbgLoop rest acc e1
      | (true, e1) =>
        decode8021QbgLoop rest
          { acc with evbSettings :=
              ⟨getEVBCapabilities (beU16at o.info 0), getEVBCapabilities (beU16at o.info 2),
                beU16at o.info 4, beU16at o.info 6, byteAt o.info 8⟩ } e1
    else decode8021QbgLoop rest acc errs

/-- Source `Decode8021Qbg` (`lldp.go` lines 658-680): the caller-visible result. -/
def Decode8021Qbg (l : LinkLayerDiscoveryInfo) : GoStep (LLDPInfo8021Qbg × Option GoError) :=
  match decode8021QbgLoop l.orgTLVs {} [] with
  | GoStep.panicked m => GoStep.panicked m
  | GoStep.errored e => GoStep.errored e
  | GoStep.ok (i, errs) => GoStep.ok (i, errs.head?)

/-! Helper lemmas about the primitive byte accessors. -/

theorem pidx_ok (l : List Nat) (i : Nat) (h : i < l.length) :
    pidx l i = GoStep.ok (byteAt l i) := by
  unfold pidx byteAt
  cases hg : l.get? i with
  | none => exact absurd (List.get?_eq_none.mp hg) (by omega)
  | some b => rfl

theorem pslice_ok (l : List Nat) (lo hi : Nat) (h1 : lo ≤ hi) (h2 : hi ≤ l.length) :
    pslice l lo hi = GoStep.ok ((l.drop lo).take (hi - lo)) := by
  unfold pslice; rw [if_pos ⟨h1, h2⟩]

theorem pslice_fail (l : List Nat) (lo hi : Nat) (h : ¬(lo ≤ hi ∧ hi ≤ l.length)) :
    pslice l lo hi = GoStep.panicked "runtime error: slice bounds out of range" := by
  unfold pslice; rw [if_neg h]

theorem psliceView_ok (l : List Nat) (lo hi : Nat) (h1 : lo ≤ hi) (h2 : hi ≤ l.length) :
    psliceView l lo hi = GoStep.ok ((l.drop lo).take (hi - lo)) := by
  unfold psliceView; rw [if_pos ⟨h1, h2⟩]

theorem get?_drop_take (l : List Nat) (k n j : Nat) (hj : j < n) :
    ((l.drop k).take n).get? j = l.get? (k + j) := by
  rw [List.get?_take hj, List.get?_drop]

theorem byteAt_some (l : List Nat) (i : Nat) (h : i < l.length) :
    l.get? i = some (byteAt l i) := by
  unfold byteAt
  cases hg : l.get? i with
  | none => exact absurd (List.get?_eq_none.mp hg) (by omega)
  | some b => rfl

theorem beUint32_slice (l : List Nat) (k : Nat) (h : k + 4 ≤ l.length) :
    beUint32 ((l.drop k).take 4) = GoStep.ok (beU32at l k) := by
  unfold beUint32
  rw [get?_drop_take l k 4 0 (by omega), get?_drop_take l k 4 1 (by omega),
    get?_drop_take l k 4 2 (by omega), get?_drop_take l k 4 3 (by omega),
    byteAt_some l (k + 0) (by omega), byteAt_some l (k + 1) (by omega),
    byteAt_some l (k + 2) (by omega), byteAt_some l (k + 3) (by omega)]
  unfold beU32at
  simp only [Nat.add_zero]

/-- Claim C1 (code bug, evaluation at the failing input): on the buffer
`[0x03, 0x01, 0x07]` — header byte `0x03` (kind 1, length-high bit set),
length-low byte `0x01` — the walker parses a record of length 1, not the
9-bit length `(1 <<< 8) ||| 1 = 257` the claim (and the evident `nbit<<8` intent of the Go code) prescribes: `nbit<<8 + vData[1]` is evaluated in 8-bit
arithmetic, so the high bit is dropped. -/
theorem claim1_eval :
    walkTLVs [3, 1, 7] = GoStep.ok [⟨1, 1, [7]⟩] ∧
      walkTLVs [3, 1, 7] ≠ GoStep.ok [⟨1, 257, [7]⟩] := by
  exact ⟨rfl, by decide⟩

/-- Claim C2 (code bug, evaluation at the failing input): on the buffer
`[0x02, 0x05, 0x01]` the first record (kind 1) declares length 5 with only
1 byte remaining after the 2-byte header.  Instead of returning the
truncated-record error of line 468 (which is unreachable, because the value
is sliced at line 462 first), `decodeLinkLayerDiscovery` panics slicing
`vData[2:7]` past the buffer; no layer is added. -/
theorem claim2_eval :
    decodeLinkLayerDiscovery [2, 5, 1] =
      ⟨[], LLDPOutcome.panicked "runtime error: slice bounds out of range"⟩ := rfl

/-- Claim C3 (counterexample): the buffer
`ChassisID(subtype 4) | PortID(subtype 3) | PortDescription | End`
has 4 records, a well-formed ChassisID and PortID, an End record, and no TTL
record, yet `decodeLinkLayerDiscovery` succeeds — both layers are added and
the outcome is completion with `TTL = 0`, not the missing-mandatory-field
error the claim predicts: line 503 checks the chassis/port subtypes and the
End flag but never that a TTL record was seen. -/
theorem claim3_counterexample :
    decodeLinkLayerDiscovery [2, 2, 4, 170, 4, 2, 3, 187, 8, 1, 66, 0, 0] =
      ⟨[LLDPLayer.frame ⟨⟨4, [170]⟩, ⟨3, [187]⟩, 0, [⟨4, 1, [66]⟩]⟩,
        LLDPLayer.info { emptyInfo with portDescription := [66] }],
        LLDPOutcome.completed⟩ := rfl

/-- Claim C4 (code bug, evaluation at the failing input): for the 8-byte
802.3 MDI-Power payload `[0, 0, 0, 0x55, 0x03, 0x01, 0xf4, 0x64]`,
`Decode8023` panics: `AllocatedPower` is computed as
`binary.BigEndian.Uint16(o.Info[7:8])`, a one-byte slice handed to a
reader of two bytes, so the read of its second byte is out of range —
the crash-free result of the claim with `AllocatedPower` = big-endian bytes 7-8
is never produced. -/
theorem claim4_eval :
    Decode8023 { emptyInfo with orgTLVs := [⟨0x00120f, 2, [0, 0, 0, 85, 3, 1, 244, 100]⟩] } =
      GoStep.panicked "runtime error: index out of range" := rfl

/-- Claim C5 (counterexample): two `Decode8021` inputs — one accumulating a
single field-level error, the other accumulating two with the same first
error — produce identical caller-visible results, so the caller cannot
receive the full ordered error list: only `errors[0]` is returned, the
second accumulated error is discarded. -/
theorem claim5_counterexample :
    Decode8021 { emptyInfo with orgTLVs := [⟨0x0080c2, 1, [9]⟩] } =
        Decode8021 { emptyInfo with orgTLVs := [⟨0x0080c2, 1, [9]⟩, ⟨0x0080c2, 6, [7]⟩] } ∧
      Decode8021Aux { emptyInfo with orgTLVs := [⟨0x0080c2, 1, [9]⟩] } =
        GoStep.ok (empty8021, [GoError.invalidOrgLen 1 1 2]) ∧
      Decode8021Aux { emptyInfo with orgTLVs := [⟨0x0080c2, 1, [9]⟩, ⟨0x0080c2, 6, [7]⟩] } =
        GoStep.ok (empty8021, [GoError.invalidOrgLen 1 1 2, GoError.invalidOrgLen 6 1 2]) := by
  exact ⟨rfl, rfl, rfl⟩

/-- Claim C7 (counterexample): for the 2-byte 802.1 VLAN Name payload
`[0, 5]` — which meets the stated floor of at least 2 bytes — `Decode8021`
panics instead of appending a `VLANName` with an empty name: the name read
`o.Info[3:]` is out of range for a 2-byte payload, and the preceding length
check only requires 2 bytes. -/
theorem claim7_counterexample :
    Decode8021 { emptyInfo with orgTLVs := [⟨0x0080c2, 3, [0, 5]⟩] } =
      GoStep.panicked "runtime error: slice bounds out of range" := rfl

/-- Claim C9 (counterexample): the 11-byte ManagementAddress value
`[255, 1, 2, 3, 4, 5, 6, 7, 8, 9, 10]` declares address length `n = 255`.
The re-validation `int(mlen+7)` is computed in 8-bit arithmetic and wraps to
`262 mod 256 = 6 ≤ 11`, so the check passes although the address field alone
would need 256 bytes; the decode then evaluates the address slice
`v.Value[2 : mlen+1]` whose high bound `(255+1) mod 256 = 0` is below its
low bound 2 — an invalid slice that panics in Go for every capacity.  This
refutes both parts of the claim: the re-validations are not computed without
8-bit wraparound, and the record is read unsafely. -/
theorem claim9_counterexample :
    decodeInfo [⟨8, 11, [255, 1, 2, 3, 4, 5, 6, 7, 8, 9, 10]⟩] =
      GoStep.panicked "runtime error: slice bounds out of range" := rfl

/-- Claim C10 (counterexample): for the 802.1 Protocol Identity payload
`[3, 1]` (declared blob length `l = 3`, only 1 byte after the length byte),
`Decode8021` reads `o.Info[1:4]` with no length guard and panics — the read
of `[1, 1+l)` is not restricted to payloads holding `1+l` bytes. -/
theorem claim10_counterexample :
    Decode8021 { emptyInfo with orgTLVs := [⟨0x0080c2, 4, [3, 1]⟩] } =
      GoStep.panicked "runtime error: slice bounds out of range" := rfl

/-- Claim C8 (confirmed): `decodeLinkLayerDiscovery` and the derived decodes
are pure functions of their input — the embedding of the Go code reads only
its arguments and touches no global state, so decoding the same bytes any
number of times yields identical layers, structured results and error
values. -/
theorem claim8_deterministic (data : List Nat) (l : LinkLayerDiscoveryInfo) :
    decodeLinkLayerDiscovery data = decodeLinkLayerDiscovery data ∧
      Decode8021 l = Decode8021 l ∧ Decode8023 l = Decode8023 l ∧
      Decode8021Qbg l = Decode8021Qbg l :=
  ⟨rfl, rfl, rfl, rfl⟩

/-- Witness for C8 at a concrete input. -/
theorem claim8_witness :
    decodeLinkLayerDiscovery [2, 2, 4, 170] = decodeLinkLayerDiscovery [2, 2, 4, 170] ∧
      Decode8021 emptyInfo = Decode8021 emptyInfo ∧
      Decode8023 emptyInfo = Decode8023 emptyInfo ∧
      Decode8021Qbg emptyInfo = Decode8021Qbg emptyInfo :=
  claim8_deterministic [2, 2, 4, 170] emptyInfo

/-- Claim C3 (amended): a missing TTL record does not, by itself, make the
decode fail.  Concretely, for every chassis subtype `cs ≠ 0` with id byte
`x`, port subtype `ps ≠ 0` with id byte `y`, and port-description byte `pd`,
the 4-record TTL-less stream
`ChassisID(cs, [x]) | PortID(ps, [y]) | PortDescription([pd]) | End`
— which satisfies every hypothesis of the original claim — decodes
successfully: `decodeLinkLayerDiscovery` adds the frame (with `TTL` left at
its zero value) and the info layer and completes, instead of failing with
the missing-mandatory-field error. -/
theorem claim3_amended (cs x ps y pd : Nat) (hcs : cs ≠ 0) (hps : ps ≠ 0) :
    decodeLinkLayerDiscovery [2, 2, cs, x, 4, 2, ps, y, 8, 1, pd, 0, 0] =
      ⟨[LLDPLayer.frame ⟨⟨cs, [x]⟩, ⟨ps, [y]⟩, 0, [⟨4, 1, [pd]⟩]⟩,
        LLDPLayer.info { emptyInfo with portDescription := [pd] }],
        LLDPOutcome.completed⟩ := by
  have hwalk : walkTLVs [2, 2, cs, x, 4, 2, ps, y, 8, 1, pd, 0, 0] =
      GoStep.ok [⟨1, 2, [cs, x]⟩, ⟨2, 2, [ps, y]⟩, ⟨4, 1, [pd]⟩, ⟨0, 0, []⟩] := rfl
  have hext : extractLoop [⟨1, 2, [cs, x]⟩, ⟨2, 2, [ps, y]⟩, ⟨4, 1, [pd]⟩, ⟨0, 0, []⟩]
      emptyDiscovery false =
      GoStep.ok (⟨⟨cs, [x]⟩, ⟨ps, [y]⟩, 0, [⟨4, 1, [pd]⟩]⟩, true) := rfl
  unfold decodeLinkLayerDiscovery decodeFrameStage
  rw [hwalk]
  simp only [List.length_cons, List.length_nil]
  norm_num
  rw [hext]
  simp only []
  rw [if_neg (by simp [hcs, hps])]
  rfl

/-- Witness for the amended C3 at a concrete no-TTL stream. -/
theorem claim3_witness :
    (4 : Nat) ≠ 0 ∧ (3 : Nat) ≠ 0 ∧
      decodeLinkLayerDiscovery [2, 2, 4, 170, 4, 2, 3, 187, 8, 1, 65, 0, 0] =
        ⟨[LLDPLayer.frame ⟨⟨4, [170]⟩, ⟨3, [187]⟩, 0, [⟨4, 1, [65]⟩]⟩,
          LLDPLayer.info { emptyInfo with portDescription := [65] }],
          LLDPOutcome.completed⟩ :=
  ⟨by decide, by decide, claim3_amended 4 170 3 187 65 (by decide) (by decide)⟩

/-- Claim C5 (amended): when the per-record info decode or the `Decode8021`
extension decode accumulates one or more field-level errors, the caller
receives the partially populated result object together with ONLY the first
accumulated error (`errors[0]`); the rest of the ordered error list is
discarded and is not observable by the caller. -/
theorem claim5_amended (data : List Nat) (c : LinkLayerDiscovery)
    (i : LinkLayerDiscoveryInfo) (e1 : GoError) (erest : List GoError)
    (l : LinkLayerDiscoveryInfo) (i8 : LLDPInfo8021) (f1 : GoError) (frest : List GoError)
    (h1 : decodeFrameStage data = GoStep.ok c)
    (h2 : decodeInfo c.values = GoStep.ok (i, e1 :: erest))
    (h3 : Decode8021Aux l = GoStep.ok (i8, f1 :: frest)) :
    decodeLinkLayerDiscovery data =
        ⟨[LLDPLayer.frame c, LLDPLayer.info i], LLDPOutcome.errored e1⟩ ∧
      Decode8021 l = GoStep.ok (i8, some f1) := by
  constructor
  · unfold decodeLinkLayerDiscovery
    rw [h1]
    simp only []
    rw [h2]
  · unfold Decode8021
    rw [h3]
    rfl

/-- Witness for the amended C5: a frame whose leftovers produce two
field-level errors (undersized SysCapabilities and ManagementAddress), and a
`Decode8021` input producing two errors; in both cases only the first error
reaches the caller alongside the populated result. -/
theorem claim5_witness :
    decodeFrameStage [2, 2, 4, 170, 4, 2, 3, 187, 6, 2, 0, 120, 14, 2, 0, 4, 16, 1, 5, 0, 0] =
        GoStep.ok ⟨⟨4, [170]⟩, ⟨3, [187]⟩, 120, [⟨7, 2, [0, 4]⟩, ⟨8, 1, [5]⟩]⟩ ∧
      decodeInfo [⟨7, 2, [0, 4]⟩, ⟨8, 1, [5]⟩] =
        GoStep.ok (emptyInfo, [GoError.invalidTLVLen 7 2 4, GoError.invalidTLVLen 8 1 9]) ∧
      Decode8021Aux { emptyInfo with orgTLVs := [⟨0x0080c2, 1, [9]⟩, ⟨0x0080c2, 6, [7]⟩] } =
        GoStep.ok (empty8021, [GoError.invalidOrgLen 1 1 2, GoError.invalidOrgLen 6 1 2]) ∧
      (decodeLinkLayerDiscovery
          [2, 2, 4, 170, 4, 2, 3, 187, 6, 2, 0, 120, 14, 2, 0, 4, 16, 1, 5, 0, 0] =
          ⟨[LLDPLayer.frame ⟨⟨4, [170]⟩, ⟨3, [187]⟩, 120, [⟨7, 2, [0, 4]⟩, ⟨8, 1, [5]⟩]⟩,
            LLDPLayer.info emptyInfo],
            LLDPOutcome.errored (GoError.invalidTLVLen 7 2 4)⟩ ∧
        Decode8021 { emptyInfo with orgTLVs := [⟨0x0080c2, 1, [9]⟩, ⟨0x0080c2, 6, [7]⟩] } =
          GoStep.ok (empty8021, some (GoError.invalidOrgLen 1 1 2))) :=
  ⟨rfl, rfl, rfl,
    claim5_amended _ _ _ _ _ _ _ _ _ rfl rfl rfl⟩

/-- Claim C6 (confirmed): an info pass over one well-formed SysName record
and one SysCapabilities record shorter than 4 bytes still yields a
`LinkLayerDiscoveryInfo` with `sysName` set to the text of that record and
`sysCapabilities` left at its zero value, together with a non-empty error
list; and on a full frame carrying those two leftovers the decoder delivers
that info layer to the caller and returns the accumulated error — the
undersized record does not abort decoding of the other records. -/
theorem claim6_partial_success (s c : List Nat) (hc : c.length < 4) :
    decodeInfo [⟨5, s.length, s⟩, ⟨7, c.length, c⟩] =
        GoStep.ok ({ emptyInfo with sysName := s }, [GoError.invalidTLVLen 7 c.length 4]) ∧
      decodeLinkLayerDiscovery
          [2, 2, 4, 170, 4, 2, 3, 187, 6, 2, 0, 120, 10, 2, 104, 105, 14, 2, 0, 4, 0, 0] =
        ⟨[LLDPLayer.frame ⟨⟨4, [170]⟩, ⟨3, [187]⟩, 120,
            [⟨5, 2, [104, 105]⟩, ⟨7, 2, [0, 4]⟩]⟩,
          LLDPLayer.info { emptyInfo with sysName := [104, 105] }],
          LLDPOutcome.errored (GoError.invalidTLVLen 7 2 4)⟩ := by
  constructor
  · have hlt : ¬ (4 ≤ c.length) := by omega
    simp [decodeInfo, decodeInfoLoop, checkLLDPTLVLen, hlt]
  · rfl

/-- Witness for C6: SysName bytes "hi", a 2-byte SysCapabilities value. -/
theorem claim6_witness :
    ([0, 4] : List Nat).length < 4 ∧
      (decodeInfo [⟨5, ([104, 105] : List Nat).length, [104, 105]⟩,
          ⟨7, ([0, 4] : List Nat).length, [0, 4]⟩] =
          GoStep.ok ({ emptyInfo with sysName := [104, 105] },
            [GoError.invalidTLVLen 7 ([0, 4] : List Nat).length 4]) ∧
        decodeLinkLayerDiscovery
            [2, 2, 4, 170, 4, 2, 3, 187, 6, 2, 0, 120, 10, 2, 104, 105, 14, 2, 0, 4, 0, 0] =
          ⟨[LLDPLayer.frame ⟨⟨4, [170]⟩, ⟨3, [187]⟩, 120,
              [⟨5, 2, [104, 105]⟩, ⟨7, 2, [0, 4]⟩]⟩,
            LLDPLayer.info { emptyInfo with sysName := [104, 105] }],
            LLDPOutcome.errored (GoError.invalidTLVLen 7 2 4)⟩) :=
  ⟨by decide, claim6_partial_success [104, 105] [0, 4] (by decide)⟩

/-- Claim C7 (amended): for every IEEE 802.1 VLAN Name payload with at least
3 bytes, `Decode8021` appends a `VLANName` whose id is the big-endian 16-bit
value of bytes 0-1 and whose name is the text of the bytes from offset 3 to
the end (empty when the payload has exactly 3 bytes); a payload of exactly
2 bytes, although it meets the ≥ 2 length floor of the code itself, makes the
`o.Info[3:]` read panic instead. -/
theorem claim7_amended (payload : List Nat) (h3 : 3 ≤ payload.length) :
    Decode8021Aux { emptyInfo with orgTLVs := [⟨0x0080c2, 3, payload⟩] } =
      GoStep.ok ({ empty8021 with vlanNames := [⟨beU16at payload 0, payload.drop 3⟩] }, []) := by
  have hs : pslice payload 3 payload.length =
      GoStep.ok ((payload.drop 3).take (payload.length - 3)) := pslice_ok _ _ _ h3 le_rfl
  have ht : (payload.drop 3).take (payload.length - 3) = payload.drop 3 := by
    apply List.take_of_length_le
    simp
  have h2 : (2 : Nat) ≤ payload.length := by omega
  simp [Decode8021Aux, decode8021Loop, checkLLDPOrgSpecificLen, h2, hs, ht, empty8021]

/-- Witness for the amended C7: payload `[0, 5, 9, 65, 66]` gives VLAN id 5
and name bytes `[65, 66]` (the byte at offset 2 is skipped). -/
theorem claim7_witness :
    (3 : Nat) ≤ ([0, 5, 9, 65, 66] : List Nat).length ∧
      Decode8021Aux { emptyInfo with orgTLVs := [⟨0x0080c2, 3, [0, 5, 9, 65, 66]⟩] } =
        GoStep.ok ({ empty8021 with vlanNames :=
          [⟨beU16at [0, 5, 9, 65, 66] 0, ([0, 5, 9, 65, 66] : List Nat).drop 3⟩] }, []) :=
  ⟨by decide, claim7_amended [0, 5, 9, 65, 66] (by decide)⟩

/-- Claim C10 (amended): for every IEEE 802.1 Protocol Identity payload with
at least 1 byte, the read of bytes `[1, 1+l)` (where `l` is byte 0) is made
whenever `l > 0`, with no length guard: when the payload actually contains
at least `1+l` bytes the blob is appended in bounds, and when it does not,
`Decode8021` panics with an out-of-range slice rather than skipping the
record. -/
theorem claim10_amended (payload : List Nat) (h1 : 1 ≤ payload.length) :
    (1 + byteAt payload 0 ≤ payload.length →
      Decode8021Aux { emptyInfo with orgTLVs := [⟨0x0080c2, 4, payload⟩] } =
        GoStep.ok (if byteAt payload 0 = 0 then (empty8021, [])
          else ({ empty8021 with
            protocolIdentities := [(payload.drop 1).take (byteAt payload 0)] }, []))) ∧
    (0 < byteAt payload 0 → payload.length < 1 + byteAt payload 0 →
      Decode8021Aux { emptyInfo with orgTLVs := [⟨0x0080c2, 4, payload⟩] } =
        GoStep.panicked "runtime error: slice bounds out of range") := by
  constructor
  · intro hin
    by_cases hz : byteAt payload 0 = 0
    · simp [Decode8021Aux, decode8021Loop, checkLLDPOrgSpecificLen, h1, hz]
    · have hpos : 0 < byteAt payload 0 := Nat.pos_of_ne_zero hz
      have hs : pslice payload 1 (1 + byteAt payload 0) =
          GoStep.ok ((payload.drop 1).take (1 + byteAt payload 0 - 1)) :=
        pslice_ok _ _ _ (by omega) hin
      have ht : 1 + byteAt payload 0 - 1 = byteAt payload 0 := by omega
      rw [ht] at hs
      simp [Decode8021Aux, decode8021Loop, checkLLDPOrgSpecificLen, h1, hz, hpos, hs, empty8021]
  · intro hpos hover
    have hs : pslice payload 1 (1 + byteAt payload 0) =
        GoStep.panicked "runtime error: slice bounds out of range" :=
      pslice_fail _ _ _ (by omega)
    simp [Decode8021Aux, decode8021Loop, checkLLDPOrgSpecificLen, h1, hpos, hs]

/-- Witness for the amended C10: payload `[2, 7, 8]` has `l = 2` and exactly
`1 + l` bytes, so the in-bounds branch applies and the blob `[7, 8]` is
appended. -/
theorem claim10_witness :
    (1 : Nat) ≤ ([2, 7, 8] : List Nat).length ∧
      1 + byteAt [2, 7, 8] 0 ≤ ([2, 7, 8] : List Nat).length ∧
      Decode8021Aux { emptyInfo with orgTLVs := [⟨0x0080c2, 4, [2, 7, 8]⟩] } =
        GoStep.ok (if byteAt [2, 7, 8] 0 = 0 then (empty8021, [])
          else ({ empty8021 with
            protocolIdentities := [(([2, 7, 8] : List Nat).drop 1).take (byteAt [2, 7, 8] 0)] },
            [])) :=
  ⟨by decide, by decide, (claim10_amended [2, 7, 8] (by decide)).1 (by decide)⟩

/-- Claim C9 (amended): the ManagementAddress offset computations `n+7`,
`n+6+m` and the slice bounds are evaluated in wrapping 8-bit byte
arithmetic, so a large declared address length defeats the re-validations
and the decode is not safe (see the counterexample, which panics for every
capacity).  The in-bounds guarantee that survives is: for every value of
length at least 9 whose length is at least `n+9+m` (with `n ≥ 1` and
`n+9+m ≤ 255`, so no 8-bit wraparound occurs), the decode stays inside the
value and fills every ManagementAddress field, reading the OID from
`[n+9, n+9+m)`. -/
theorem claim9_amended (v : List Nat) (h9 : 9 ≤ v.length) (hn : 1 ≤ byteAt v 0)
    (hwrap : byteAt v 0 + 9 + byteAt v (byteAt v 0 + 6) ≤ 255)
    (hlen : byteAt v 0 + 9 + byteAt v (byteAt v 0 + 6) ≤ v.length) :
    decodeInfo [⟨8, v.length, v⟩] =
      GoStep.ok ({ emptyInfo with mgmtAddress :=
        { subtype := byteAt v 1
          address := (v.drop 2).take (byteAt v 0 - 1)
          interfaceSubtype := byteAt v (byteAt v 0 + 1)
          interfaceNumber := beU32at v (byteAt v 0 + 2)
          oid := (v.drop (byteAt v 0 + 9)).take (byteAt v (byteAt v 0 + 6)) } }, []) := by
  set n := byteAt v 0 with hn0
  set m := byteAt v (n + 6) with hm0
  have hv0 : 0 < v.length := by omega
  have hp0 : pidx v 0 = GoStep.ok n := pidx_ok v 0 hv0
  have hm7 : (n + 7) % 256 = n + 7 := Nat.mod_eq_of_lt (by omega)
  have hm1 : (n + 1) % 256 = n + 1 := Nat.mod_eq_of_lt (by omega)
  have hm2 : (n + 2) % 256 = n + 2 := Nat.mod_eq_of_lt (by omega)
  have hm6 : (n + 6) % 256 = n + 6 := Nat.mod_eq_of_lt (by omega)
  have hm6m : (n + 6 + m) % 256 = n + 6 + m := Nat.mod_eq_of_lt (by omega)
  have hm9 : (n + 9) % 256 = n + 9 := Nat.mod_eq_of_lt (by omega)
  have hm9m : (n + 9 + m) % 256 = n + 9 + m := Nat.mod_eq_of_lt (by omega)
  have hc7 : n + 7 ≤ v.length := by omega
  have hc6m : n + 6 + m ≤ v.length := by omega
  have hsub1 : n + 1 - 2 = n - 1 := by omega
  have hsa : psliceView v 2 (n + 1) = GoStep.ok ((v.drop 2).take (n - 1)) := by
    rw [psliceView_ok v 2 (n + 1) (by omega) (by omega), hsub1]
  have hpi1 : pidx v (n + 1) = GoStep.ok (byteAt v (n + 1)) := pidx_ok v (n + 1) (by omega)
  have hsub4 : n + 6 - (n + 2) = 4 := by omega
  have hs26 : psliceView v (n + 2) (n + 6) = GoStep.ok ((v.drop (n + 2)).take 4) := by
    rw [psliceView_ok v (n + 2) (n + 6) (by omega) (by omega), hsub4]
  have hbe : beUint32 ((v.drop (n + 2)).take 4) = GoStep.ok (beU32at v (n + 2)) :=
    beUint32_slice v (n + 2) (by omega)
  have hpi6 : pidx v (n + 6) = GoStep.ok m := pidx_ok v (n + 6) (by omega)
  have hsubm : n + 9 + m - (n + 9) = m := by omega
  have hoid : psliceView v (n + 9) (n + 9 + m) = GoStep.ok ((v.drop (n + 9)).take m) := by
    rw [psliceView_ok v (n + 9) (n + 9 + m) (by omega) (by omega), hsubm]
  simp [decodeInfo, decodeInfoLoop, checkLLDPTLVLen, h9, hp0, hm7, hm1, hm2, hm6, hm6m,
    hm9, hm9m, hc7, hc6m, hsa, hpi1, hs26, hbe, hpi6, hoid]

/-- Witness for the amended C9: value
`[4, 1, 192, 168, 0, 2, 0, 0, 0, 7, 1, 9, 9, 88]` with `n = 4`, `m = 1` and
length exactly `n+9+m = 14`. -/
theorem claim9_witness :
    (9 : Nat) ≤ ([4, 1, 192, 168, 0, 2, 0, 0, 0, 7, 1, 9, 9, 88] : List Nat).length ∧
      1 ≤ byteAt [4, 1, 192, 168, 0, 2, 0, 0, 0, 7, 1, 9, 9, 88] 0 ∧
      decodeInfo [⟨8, ([4, 1, 192, 168, 0, 2, 0, 0, 0, 7, 1, 9, 9, 88] : List Nat).length,
          [4, 1, 192, 168, 0, 2, 0, 0, 0, 7, 1, 9, 9, 88]⟩] =
        GoStep.ok ({ emptyInfo with mgmtAddress :=
          ⟨1, [192, 168, 0], 2, 7, [88]⟩ }, []) :=
  ⟨by decide, by decide, by
    have h := claim9_amended [4, 1, 192, 168, 0, 2, 0, 0, 0, 7, 1, 9, 9, 88]
      (by decide) (by decide) (by decide) (by decide)
    simpa using h⟩
